import Mathlib

/-!
Shallow embedding of the looksrare-rs client (src/api.rs) in Lean 4.

The repository's only source file is `src/api.rs`.  It defines a typed REST
client `LooksRareApi` with two operations, `get_account` and `get_orders`;
the heart of the code is the query encoder inside `get_orders`, which turns a
partially populated `OrdersRequest` into an ordered list of
`(key, serde_json::Value)` pairs, and the envelope unwrapping that turns a
decoded response into either a payload or a typed error.

The companion module `crate::types` (providing `Account`, `Order`, `Network`)
is not part of the sources; those types are modelled from the specification.
Library behaviour (serde_json, impl-serde, serde_urlencoded) is embedded
faithfully:
  * `serde_json::to_value` on `Option<T>` serializes `Some(x)` as the value
    of `x` and `None` as JSON null;
  * ethers/primitive-types `Address` (H160) serializes as a JSON string
    `0x` followed by exactly 40 lowercase hexadecimal digits;
  * ethers/primitive-types `U256` serializes as a JSON string `0x` followed
    by the minimal lowercase hexadecimal digits of the value (zero is `0x0`);
  * `u64` serializes as a JSON number, rendered in decimal in a query string;
  * reqwest's `.query` (serde_urlencoded) renders a Bool value as
    `true`/`false`, a Number in decimal, and a String as itself.
-/

/-- A 20-byte Ethereum address (ethers `Address` = `H160`), kept as its byte
sequence.  The well-formedness constraint (20 bytes, each below 256) is a
construction-time concern of the Rust type; concrete addresses used in
theorems below satisfy it. -/
structure Address where
  bytes : List Nat
deriving Repr, DecidableEq

/-- Hexadecimal digit character of `n % 16`, lowercase, as produced by the
hex encoding used by impl-serde. -/
def hexDigit (n : Nat) : Char :=
  Nat.digitChar (n % 16)

/-- The 40 lowercase hex characters of an address's 20 bytes, in order. -/
def Address.hexChars (a : Address) : List Char :=
  a.bytes.foldr (fun b acc => hexDigit (b / 16) :: hexDigit b :: acc) []

/-- The JSON-string form of an `Address` produced by serde: `0x` plus 40
lowercase hex digits (impl-serde's `serialize`). -/
def Address.toHexString (a : Address) : String :=
  "0x" ++ String.mk a.hexChars

/-- The JSON-string form of a `U256` value produced by serde: `0x` plus the
minimal lowercase hex digits (impl-serde's uint serialization; zero is
`0x0`). -/
def u256ToHexString (n : Nat) : String :=
  "0x" ++ String.mk (Nat.toDigits 16 n)

/-- `Status` enum from src/api.rs. -/
inductive Status where
  | Cancelled
  | Executed
  | Expired
  | Valid
deriving Repr, DecidableEq

/-- `Status::to_str` from src/api.rs. -/
def Status.to_str : Status → String
  | .Cancelled => "CANCELLED"
  | .Executed => "EXECUTED"
  | .Expired => "EXPIRED"
  | .Valid => "VALID"

/-- Modelled from the spec: the inverse wire-token-to-enum mapping for
`Status`, which the spec requires to be derivable for round-trip tests but
which has no counterpart in src/api.rs. -/
def Status.from_str : String → Option Status
  | "CANCELLED" => some .Cancelled
  | "EXECUTED" => some .Executed
  | "EXPIRED" => some .Expired
  | "VALID" => some .Valid
  | _ => none

/-- `Sort` enum from src/api.rs (`Sort` is a reserved word in Lean, hence the
prime). -/
inductive Sort' where
  | ExpiringSoon
  | Newest
  | PriceAsc
  | PriceDesc
deriving Repr, DecidableEq

/-- `Sort::to_str` from src/api.rs. -/
def Sort'.to_str : Sort' → String
  | .ExpiringSoon => "EXPIRING_SOON"
  | .Newest => "NEWEST"
  | .PriceAsc => "PRICE_ASC"
  | .PriceDesc => "PRICE_DESC"

/-- Modelled from the spec: the inverse wire-token-to-enum mapping for
`Sort`, required derivable by the spec, absent from src/api.rs. -/
def Sort'.from_str : String → Option Sort'
  | "EXPIRING_SOON" => some .ExpiringSoon
  | "NEWEST" => some .Newest
  | "PRICE_ASC" => some .PriceAsc
  | "PRICE_DESC" => some .PriceDesc
  | _ => none

/-- The fragment of `serde_json::Value` that the client can produce as a
query parameter value. -/
inductive JsonValue where
  | null
  | bool (b : Bool)
  | num (n : Nat)
  | str (s : String)
deriving Repr, DecidableEq

/-- `serde_json::to_value` on an `Option<bool>`. -/
def toValueOptBool : Option Bool → JsonValue
  | none => .null
  | some b => .bool b

/-- `serde_json::to_value` on an `Option<Address>`. -/
def toValueOptAddress : Option Address → JsonValue
  | none => .null
  | some a => .str a.toHexString

/-- `serde_json::to_value` on an `Option<String>`. -/
def toValueOptString : Option String → JsonValue
  | none => .null
  | some s => .str s

/-- `serde_json::to_value` on an `Option<U256>` (the value as a `Nat`). -/
def toValueOptU256 : Option Nat → JsonValue
  | none => .null
  | some n => .str (u256ToHexString n)

/-- `serde_json::to_value` on an `Option<u64>` (the value as a `Nat`). -/
def toValueOptU64 : Option Nat → JsonValue
  | none => .null
  | some n => .num n

/-- serde_urlencoded's rendering of a query value, as applied by reqwest's
`.query(&query)` to each pair's value.  `null` is never produced by the
encoder below (every pushed value sits under the presence check of its
field), so its rendering is unobservable; we pick the literal `null`. -/
def JsonValue.render : JsonValue → String
  | .null => "null"
  | .bool b => cond b "true" "false"
  | .num n => toString n
  | .str s => s

/-- `Pagination` struct from src/api.rs. -/
structure Pagination where
  first : Option Nat
  cursor : Option String
deriving Repr, DecidableEq

/-- `OrdersRequest` struct from src/api.rs: twelve independently optional
filter fields. -/
structure OrdersRequest where
  is_order_ask : Option Bool
  collection : Option Address
  token_id : Option String
  signer : Option Address
  nonce : Option String
  strategy : Option Address
  currency : Option Address
  price : Option Nat
  start_time : Option Nat
  status : Option (List Status)
  pagination : Option Pagination
  sort : Option Sort'
deriving Repr, DecidableEq

/-- One `if let Some(_) = &field { query.push(pair) }` step of the encoder:
emits its pairs exactly when the field is present. -/
def optSeg {α β : Type} (o : Option α) (kv : List β) : List β :=
  match o with
  | some _ => kv
  | none => []

/-- The `status` block of the encoder: `req.status.unwrap().iter_mut()`
pushing one `("status[]", to_value(x.to_str()))` pair per element, in list
order. -/
def statusSeg (o : Option (List Status)) : List (String × JsonValue) :=
  match o with
  | some l => l.map fun x => ("status[]", JsonValue.str x.to_str)
  | none => []

/-- The `pagination` block of the encoder: under presence of `pagination`,
pushes `pagination[first]` (the `u64` rendered via `to_string()`, hence
decimal) when `first` is set, then `pagination[cursor]` (serde value of the
`Option<String>`) when `cursor` is set. -/
def paginationSeg (o : Option Pagination) : List (String × JsonValue) :=
  match o with
  | some p =>
      (match p.first with
        | some f => [("pagination[first]", JsonValue.str (toString f))]
        | none => []) ++
      (match p.cursor with
        | some _ => [("pagination[cursor]", toValueOptString p.cursor)]
        | none => [])
  | none => []

/-- The `sort` block of the encoder: `req.sort.unwrap().to_str()` under
presence of `sort`. -/
def sortSeg (o : Option Sort') : List (String × JsonValue) :=
  match o with
  | some s => [("sort", JsonValue.str s.to_str)]
  | none => []

/-- The query encoder of `LooksRareApi::get_orders` (src/api.rs lines
48-77): the ordered list of `(key, value)` pairs pushed into `query`. -/
def get_orders_query (req : OrdersRequest) : List (String × JsonValue) :=
  optSeg req.is_order_ask [("isOrderAsk", toValueOptBool req.is_order_ask)] ++
  optSeg req.collection [("collection", toValueOptAddress req.collection)] ++
  optSeg req.token_id [("tokenId", toValueOptString req.token_id)] ++
  optSeg req.signer [("signer", toValueOptAddress req.signer)] ++
  optSeg req.nonce [("nonce", toValueOptString req.nonce)] ++
  optSeg req.strategy [("strategy", toValueOptAddress req.strategy)] ++
  optSeg req.currency [("currency", toValueOptAddress req.currency)] ++
  optSeg req.price [("price", toValueOptU256 req.price)] ++
  optSeg req.start_time [("startTime", toValueOptU64 req.start_time)] ++
  statusSeg req.status ++
  paginationSeg req.pagination ++
  sortSeg req.sort

/-- serde_urlencoded's rendering of a pair list: each value rendered to a
string. -/
def stringsOf (q : List (String × JsonValue)) : List (String × String) :=
  q.map fun p => (p.1, p.2.render)

/-- The query as it reaches the URL: each pair's value rendered to a string
by serde_urlencoded. -/
def get_orders_query_strings (req : OrdersRequest) : List (String × String) :=
  stringsOf (get_orders_query req)

/-- The pairs of a string query that carry a given key. -/
def keyPairs (q : List (String × String)) (k : String) : List (String × String) :=
  q.filter fun p => p.1 == k

/-- The all-absent `OrdersRequest`. -/
def emptyOrdersRequest : OrdersRequest :=
  { is_order_ask := none, collection := none, token_id := none,
    signer := none, nonce := none, strategy := none, currency := none,
    price := none, start_time := none, status := none, pagination := none,
    sort := none }

example : get_orders_query_strings emptyOrdersRequest = [] := by decide

/-- Modelled from the spec: `Account` from `crate::types` (absent from the
sources) — the decoded account payload, with an `address` field; all other
profile fields are opaque to this core. -/
structure Account where
  address : Address
deriving Repr, DecidableEq

/-- Modelled from the spec: `Order` from `crate::types` (absent from the
sources) — the decoded order payload with the fields the spec lists. -/
structure Order where
  is_order_ask : Bool
  collection_address : Address
  token_id : String
  signer : Address
  nonce : String
  strategy : Address
  currency : Address
  price : Nat
  start_time : Nat
  status : String
deriving Repr, DecidableEq

/-- Modelled from the spec: the `Network` selector from `crate::types`
(absent from the sources) — a logical network, e.g. Mainnet or Testnet. -/
inductive Network where
  | Mainnet
  | Testnet
deriving Repr, DecidableEq

/-- Modelled from the spec: `Network::api`, the total map from logical
network to base URL string (the spec fixes the shape, not the literal
strings; what matters below is only which network a client consults). -/
def Network.api : Network → String
  | .Mainnet => "https://api.looksrare.org/api/v1"
  | .Testnet => "https://api-rinkeby.looksrare.org/api/v1"

/-- `AccountRequest` struct from src/api.rs. -/
structure AccountRequest where
  address : Address
deriving Repr, DecidableEq

/-- `AccountResponse` envelope from src/api.rs. -/
structure AccountResponse where
  success : Bool
  message : Option String
  data : Option Account
deriving Repr, DecidableEq

/-- `OrdersResponse` envelope from src/api.rs. -/
structure OrdersResponse where
  success : Bool
  message : Option String
  data : Option (List Order)
deriving Repr, DecidableEq

/-- `LooksRareApiError` from src/api.rs.  The `Reqwest` and `SerdeJson`
variants wrap external library errors; their payloads are opaque here. -/
inductive LooksRareApiError where
  | Reqwest
  | SerdeJson
  | AccountNotFound (address : Address)
  | OrdersNotFound
deriving Repr, DecidableEq

/-- Rust's `Option::ok_or`. -/
def okOr {α ε : Type} (o : Option α) (e : ε) : Except ε α :=
  match o with
  | some a => Except.ok a
  | none => Except.error e

/-- The envelope-unwrapping stage of `LooksRareApi::get_account` (src/api.rs
lines 36-40): `resp.data.ok_or(AccountNotFound { address: req.address })`,
applied to a successfully decoded response. -/
def get_account_result (req : AccountRequest) (resp : AccountResponse) :
    Except LooksRareApiError Account :=
  okOr resp.data (LooksRareApiError.AccountNotFound req.address)

/-- The envelope-unwrapping stage of `LooksRareApi::get_orders` (src/api.rs
lines 82-85): `resp.data.ok_or(OrdersNotFound)`. -/
def get_orders_result (resp : OrdersResponse) :
    Except LooksRareApiError (List Order) :=
  okOr resp.data LooksRareApiError.OrdersNotFound

/-- The `LooksRareApi` client struct from src/api.rs; the reqwest `Client`
carries no observable state for this development, so only the network field
is kept. -/
structure LooksRareApi where
  network : Network
deriving Repr, DecidableEq

/-- `LooksRareApi::new` (src/api.rs lines 16-25): no network parameter, the
network field is always `Mainnet`. -/
def LooksRareApi.new : LooksRareApi :=
  { network := Network.Mainnet }

/-- The URL built by `get_account` (src/api.rs line 29):
`format!("{}/accounts", self.network.api())`. -/
def get_account_url (self : LooksRareApi) : String :=
  self.network.api ++ "/accounts"

/-- The URL built by `get_orders` (src/api.rs line 45):
`format!("{}/orders", self.network.api())`. -/
def get_orders_url (self : LooksRareApi) : String :=
  self.network.api ++ "/orders"

/-!
A panic-tracking version of the query encoder.  Rust's `Option::unwrap`
panics on `None`; the encoder in `get_orders` calls `unwrap` (and the `?`
operator on `serde_json::to_value`, which cannot fail for the types
serialized here) only under `if let Some(..)` presence checks.  The
function below mirrors the code with every `unwrap` modelled as a bind in
the `Option` monad — a `none` result would be a panic.  Each re-access of a
field (`req.pagination.clone().unwrap()` appears three times in the source)
is mirrored by its own bind.
-/

/-- The encoder of `get_orders` with each `Option::unwrap` modelled as an
`Option` bind (`none` = panic). -/
def get_orders_query? (req : OrdersRequest) : Option (List (String × JsonValue)) := do
  let qStatus ← match req.status with
    | some _ => do
        let l ← req.status
        pure (l.map fun x => ("status[]", JsonValue.str x.to_str))
    | none => pure []
  let qPag ← match req.pagination with
    | some _ => do
        let p1 ← req.pagination
        let qf ← match p1.first with
          | some _ => do
              let p2 ← req.pagination
              let f ← p2.first
              pure [("pagination[first]", JsonValue.str (toString f))]
          | none => pure ([] : List (String × JsonValue))
        let p3 ← req.pagination
        let qc ← match p3.cursor with
          | some _ => do
              let p4 ← req.pagination
              pure [("pagination[cursor]", toValueOptString p4.cursor)]
          | none => pure ([] : List (String × JsonValue))
        pure (qf ++ qc)
    | none => pure []
  let qSort ← match req.sort with
    | some _ => do
        let s ← req.sort
        pure [("sort", JsonValue.str s.to_str)]
    | none => pure []
  pure
    (optSeg req.is_order_ask [("isOrderAsk", toValueOptBool req.is_order_ask)] ++
     optSeg req.collection [("collection", toValueOptAddress req.collection)] ++
     optSeg req.token_id [("tokenId", toValueOptString req.token_id)] ++
     optSeg req.signer [("signer", toValueOptAddress req.signer)] ++
     optSeg req.nonce [("nonce", toValueOptString req.nonce)] ++
     optSeg req.strategy [("strategy", toValueOptAddress req.strategy)] ++
     optSeg req.currency [("currency", toValueOptAddress req.currency)] ++
     optSeg req.price [("price", toValueOptU256 req.price)] ++
     optSeg req.start_time [("startTime", toValueOptU64 req.start_time)] ++
     qStatus ++ qPag ++ qSort)

/-!
Keccak-256 and the EIP-55 checksummed address form.

The spec declares the canonical boundary form of an address to be its
checksummed hexadecimal string.  For Ethereum addresses that form is the
EIP-55 mixed-case encoding, which capitalizes the i-th hex letter exactly
when the i-th nibble of the Keccak-256 hash of the lowercase 40-character
hex string is at least 8.  Neither the checksum nor Keccak appears in the
sources (the serde serialization emits plain lowercase hex), so both are
defined here from their public standards, to compare the code's output with
the spec's canonical form.  Lanes are 64-bit words kept as `Nat` reduced
modulo `2 ^ 64`.
-/

/-- Left-rotation of a 64-bit lane. -/
def rotl64 (x k : Nat) : Nat :=
  ((x <<< k) ||| (x >>> (64 - k))) % (2 ^ 64)

/-- Lane `(x, y)` of a 25-lane Keccak state (index `x + 5 * y`). -/
def lane (s : List Nat) (x y : Nat) : Nat :=
  s.getD (x % 5 + 5 * (y % 5)) 0

/-- Keccak θ step. -/
def keccakTheta (s : List Nat) : List Nat :=
  let c := (List.range 5).map fun x =>
    lane s x 0 ^^^ lane s x 1 ^^^ lane s x 2 ^^^ lane s x 3 ^^^ lane s x 4
  let d := (List.range 5).map fun x =>
    c.getD ((x + 4) % 5) 0 ^^^ rotl64 (c.getD ((x + 1) % 5) 0) 1
  (List.range 25).map fun i => s.getD i 0 ^^^ d.getD (i % 5) 0

/-- The ρ rotation offset of the lane at index `x + 5 * y`. -/
def rhoOffset : Nat → Nat
  | 1 => 1
  | 2 => 62
  | 3 => 28
  | 4 => 27
  | 5 => 36
  | 6 => 44
  | 7 => 6
  | 8 => 55
  | 9 => 20
  | 10 => 3
  | 11 => 10
  | 12 => 43
  | 13 => 25
  | 14 => 39
  | 15 => 41
  | 16 => 45
  | 17 => 15
  | 18 => 21
  | 19 => 8
  | 20 => 18
  | 21 => 2
  | 22 => 61
  | 23 => 56
  | 24 => 14
  | _ => 0

/-- Keccak ρ and π steps combined: output lane `(x', y')` is the rotation of
input lane `((x' + 3 y') % 5, x')`. -/
def keccakRhoPi (s : List Nat) : List Nat :=
  (List.range 25).map fun j =>
    let xO := j % 5
    let yO := j / 5
    let xI := (xO + 3 * yO) % 5
    let yI := xO
    rotl64 (lane s xI yI) (rhoOffset (xI % 5 + 5 * (yI % 5)))

/-- Keccak χ step. -/
def keccakChi (s : List Nat) : List Nat :=
  (List.range 25).map fun j =>
    let x := j % 5
    let y := j / 5
    lane s x y ^^^
      (((lane s (x + 1) y) ^^^ (2 ^ 64 - 1)) &&& lane s (x + 2) y)

/-- The 24 Keccak round constants. -/
def keccakRC : List Nat :=
  [0x0000000000000001, 0x0000000000008082, 0x800000000000808a,
   0x8000000080008000, 0x000000000000808b, 0x0000000080000001,
   0x8000000080008081, 0x8000000000008009, 0x000000000000008a,
   0x0000000000000088, 0x0000000080008009, 0x000000008000000a,
   0x000000008000808b, 0x800000000000008b, 0x8000000000008089,
   0x8000000000008003, 0x8000000000008002, 0x8000000000000080,
   0x000000000000800a, 0x800000008000000a, 0x8000000080008081,
   0x8000000000008080, 0x0000000080000001, 0x8000000080008008]

/-- One Keccak-f round: θ, ρ, π, χ, then ι with round constant `i`. -/
def keccakRound (s : List Nat) (i : Nat) : List Nat :=
  let t := keccakChi (keccakRhoPi (keccakTheta s))
  t.set 0 (t.getD 0 0 ^^^ keccakRC.getD i 0)

/-- The Keccak-f[1600] permutation: 24 rounds. -/
def keccakF (s : List Nat) : List Nat :=
  (List.range 24).foldl keccakRound s

/-- Keccak (pre-SHA-3) pad10*1 with domain byte 0x01, to a multiple of the
136-byte rate. -/
def keccakPad (msg : List Nat) : List Nat :=
  let padLen := 136 - msg.length % 136
  if padLen == 1 then msg ++ [0x81]
  else msg ++ [0x01] ++ List.replicate (padLen - 2) 0 ++ [0x80]

/-- A little-endian 8-byte sequence as one 64-bit lane. -/
def bytesToLane (bs : List Nat) : Nat :=
  bs.foldr (fun b acc => b + 256 * acc) 0

/-- Absorb one 136-byte block into the state and permute. -/
def absorbBlock (s : List Nat) (block : List Nat) : List Nat :=
  let lanes := (List.range 17).map fun i => bytesToLane ((block.drop (8 * i)).take 8)
  keccakF ((List.range 25).map fun i =>
    s.getD i 0 ^^^ (if i < 17 then lanes.getD i 0 else 0))

/-- Split a byte list into 136-byte blocks (fuel-driven; the fuel passed is
always at least the number of blocks). -/
def blocks136 : Nat → List Nat → List (List Nat)
  | 0, _ => []
  | _ + 1, [] => []
  | n + 1, l => l.take 136 :: blocks136 n (l.drop 136)

/-- The first 32 bytes squeezed from a Keccak state, little-endian per
lane. -/
def keccakSqueeze (s : List Nat) : List Nat :=
  (List.range 32).map fun i => (s.getD (i / 8) 0 >>> (8 * (i % 8))) % 256

/-- Keccak-256 of a byte sequence (the Ethereum hash: original Keccak
padding, 1088-bit rate, 256-bit output). -/
def keccak256 (msg : List Nat) : List Nat :=
  let padded := keccakPad msg
  keccakSqueeze ((blocks136 padded.length padded).foldl absorbBlock
    (List.replicate 25 0))

/-- EIP-55: the checksummed 40-character form of an address.  Character `i`
of the lowercase hex form is uppercased exactly when it is a letter and
nibble `i` of the Keccak-256 hash of the lowercase hex string (as ASCII
bytes) is at least 8. -/
def Address.eip55Chars (a : Address) : List Char :=
  let hex := a.hexChars
  let hash := keccak256 (hex.map Char.toNat)
  (List.range hex.length).map fun i =>
    let c := hex.getD i '0'
    let b := hash.getD (i / 2) 0
    let nib := if i % 2 == 0 then b / 16 else b % 16
    if 97 ≤ c.toNat ∧ 8 ≤ nib then Char.ofNat (c.toNat - 32) else c

/-- The canonical (EIP-55 checksummed) hexadecimal string of an address, as
the spec prescribes for the boundary. -/
def Address.toChecksumString (a : Address) : String :=
  "0x" ++ String.mk a.eip55Chars

/-!
Sanity checks for the Keccak-256 and EIP-55 embeddings against published
test vectors: the Keccak-256 hash of the empty input, and the first
mixed-case example from the EIP-55 text.
-/

set_option maxRecDepth 20000 in
/-- Keccak-256 of the empty byte sequence matches the published vector. -/
theorem keccak256_empty_vector :
    keccak256 [] =
      [0xc5, 0xd2, 0x46, 0x01, 0x86, 0xf7, 0x23, 0x3c,
       0x92, 0x7e, 0x7d, 0xb2, 0xdc, 0xc7, 0x03, 0xc0,
       0xe5, 0x00, 0xb6, 0x53, 0xca, 0x82, 0x27, 0x3b,
       0x7b, 0xfa, 0xd8, 0x04, 0x5d, 0x85, 0xa4, 0x70] := by
  decide

set_option maxRecDepth 20000 in
/-- The EIP-55 checksum of the first mixed-case address listed in EIP-55. -/
theorem eip55_vector :
    Address.toChecksumString
        { bytes := [0x5a, 0xae, 0xb6, 0x05, 0x3f, 0x3e, 0x94, 0xc9, 0xb9,
                    0xa0, 0x9f, 0x33, 0x66, 0x94, 0x35, 0xe7, 0xef, 0x1b,
                    0xea, 0xed] }
      = "0x5aAeb6053F3E94C9b9A09f33669435E7Ef1BeAed" := by
  decide

/-!
Helper lemmas: how `keyPairs` interacts with the rendered segments of the
encoder.  Every key the encoder can emit is one of the thirteen fixed
literals, so filtering by one key isolates the segment (or segments) that
own it.
-/

theorem stringsOf_append (a b : List (String × JsonValue)) :
    stringsOf (a ++ b) = stringsOf a ++ stringsOf b := by
  simp [stringsOf]

theorem keyPairs_append (a b : List (String × String)) (k : String) :
    keyPairs (a ++ b) k = keyPairs a k ++ keyPairs b k := by
  simp [keyPairs, List.filter_append]

theorem optSeg_nil {α β : Type} (o : Option α) : optSeg o ([] : List β) = [] := by
  cases o <;> rfl

theorem stringsOf_nil : stringsOf [] = [] := rfl

theorem keyPairs_nil (k : String) : keyPairs [] k = [] := rfl

theorem keyPairs_optSeg_ne {α : Type} (o : Option α) (kk k : String)
    (v : JsonValue) (h : (kk == k) = false) :
    keyPairs (stringsOf (optSeg o [(kk, v)])) k = [] := by
  cases o <;> simp [optSeg, stringsOf, keyPairs, h]

theorem keyPairs_optSeg_eq {α : Type} (a : α) (k : String) (v : JsonValue) :
    keyPairs (stringsOf (optSeg (some a) [(k, v)])) k = [(k, v.render)] := by
  simp [optSeg, stringsOf, keyPairs]

theorem keyPairs_statusSeg_ne (o : Option (List Status)) (k : String)
    (h : (("status[]" : String) == k) = false) :
    keyPairs (stringsOf (statusSeg o)) k = [] := by
  cases o with
  | none => rfl
  | some l =>
      induction l with
      | nil => rfl
      | cons x xs ih =>
          simpa [statusSeg, stringsOf, keyPairs, h] using ih

theorem keyPairs_statusSeg_eq (l : List Status) :
    keyPairs (stringsOf (statusSeg (some l))) "status[]"
      = l.map fun x => ("status[]", x.to_str) := by
  induction l with
  | nil => rfl
  | cons x xs ih =>
      simpa [statusSeg, stringsOf, keyPairs, JsonValue.render] using ih

theorem keyPairs_pagSeg_ne (o : Option Pagination) (k : String)
    (h1 : (("pagination[first]" : String) == k) = false)
    (h2 : (("pagination[cursor]" : String) == k) = false) :
    keyPairs (stringsOf (paginationSeg o)) k = [] := by
  cases o with
  | none => rfl
  | some p =>
      obtain ⟨pf, pc⟩ := p
      cases pf <;> cases pc <;>
        simp [paginationSeg, stringsOf, keyPairs, toValueOptString, h1, h2]

theorem keyPairs_pagSeg_first (p : Pagination) :
    keyPairs (stringsOf (paginationSeg (some p))) "pagination[first]"
      = match p.first with
        | some f => [("pagination[first]", toString f)]
        | none => [] := by
  obtain ⟨pf, pc⟩ := p
  cases pf <;> cases pc <;>
    simp [paginationSeg, stringsOf, keyPairs, toValueOptString, JsonValue.render]

theorem keyPairs_pagSeg_cursor (p : Pagination) :
    keyPairs (stringsOf (paginationSeg (some p))) "pagination[cursor]"
      = match p.cursor with
        | some c => [("pagination[cursor]", c)]
        | none => [] := by
  obtain ⟨pf, pc⟩ := p
  cases pf <;> cases pc <;>
    simp [paginationSeg, stringsOf, keyPairs, toValueOptString, JsonValue.render]

theorem keyPairs_sortSeg_ne (o : Option Sort') (k : String)
    (h : (("sort" : String) == k) = false) :
    keyPairs (stringsOf (sortSeg o)) k = [] := by
  cases o <;> simp [sortSeg, stringsOf, keyPairs, h]

theorem keyPairs_sortSeg_eq (s : Sort') :
    keyPairs (stringsOf (sortSeg (some s))) "sort" = [("sort", s.to_str)] := by
  simp [sortSeg, stringsOf, keyPairs, JsonValue.render]

/-- Filtering the rendered query by a key splits into the thirteen
segments. -/
theorem keyPairs_query (req : OrdersRequest) (k : String) :
    keyPairs (get_orders_query_strings req) k =
      keyPairs (stringsOf (optSeg req.is_order_ask
        [("isOrderAsk", toValueOptBool req.is_order_ask)])) k ++
      keyPairs (stringsOf (optSeg req.collection
        [("collection", toValueOptAddress req.collection)])) k ++
      keyPairs (stringsOf (optSeg req.token_id
        [("tokenId", toValueOptString req.token_id)])) k ++
      keyPairs (stringsOf (optSeg req.signer
        [("signer", toValueOptAddress req.signer)])) k ++
      keyPairs (stringsOf (optSeg req.nonce
        [("nonce", toValueOptString req.nonce)])) k ++
      keyPairs (stringsOf (optSeg req.strategy
        [("strategy", toValueOptAddress req.strategy)])) k ++
      keyPairs (stringsOf (optSeg req.currency
        [("currency", toValueOptAddress req.currency)])) k ++
      keyPairs (stringsOf (optSeg req.price
        [("price", toValueOptU256 req.price)])) k ++
      keyPairs (stringsOf (optSeg req.start_time
        [("startTime", toValueOptU64 req.start_time)])) k ++
      keyPairs (stringsOf (statusSeg req.status)) k ++
      keyPairs (stringsOf (paginationSeg req.pagination)) k ++
      keyPairs (stringsOf (sortSeg req.sort)) k := by
  simp only [get_orders_query_strings, get_orders_query, stringsOf_append,
    keyPairs_append]

/-- C5: with every one of the twelve optional fields absent, the query
encoder of `get_orders` produces the empty parameter sequence. -/
theorem orders_query_all_absent_empty :
    get_orders_query_strings emptyOrdersRequest = [] := by
  decide

/-- The request of the repository's `can_get_orders` test, with the three
addresses abstract: isOrderAsk true, collection x, tokenId 62962, signer y,
nonce 17832, strategy z, status the single-element list Cancelled,
pagination with first 4 and no cursor, sort Newest, everything else
absent. -/
def c2Request (x y z : Address) : OrdersRequest :=
  { is_order_ask := some true, collection := some x,
    token_id := some "62962", signer := some y, nonce := some "17832",
    strategy := some z, currency := none, price := none, start_time := none,
    status := some [Status.Cancelled],
    pagination := some { first := some 4, cursor := none },
    sort := some Sort'.Newest }

/-- C2: for the specific request of the repository's test, the encoded
parameter list is exactly the nine pairs isOrderAsk true, collection x,
tokenId 62962, signer y, nonce 17832, strategy z, status CANCELLED under
key status with bracket suffix, pagination first 4, sort NEWEST, in that
order and with no other pairs. -/
theorem orders_query_concrete_nine_pairs (x y z : Address) :
    get_orders_query_strings (c2Request x y z) =
      [("isOrderAsk", "true"),
       ("collection", x.toHexString),
       ("tokenId", "62962"),
       ("signer", y.toHexString),
       ("nonce", "17832"),
       ("strategy", z.toHexString),
       ("status[]", "CANCELLED"),
       ("pagination[first]", "4"),
       ("sort", "NEWEST")] := by
  rfl

/-- C6: the `Status` and `Sort` wire-token mappings are total in both
directions and satisfy the round-trip laws: decoding the token of any
variant returns that variant, and encoding the decode of any of the eight
wire tokens returns the same token. -/
theorem status_sort_wire_token_round_trip :
    (∀ s : Status, Status.from_str s.to_str = some s) ∧
    (Status.from_str "CANCELLED").map Status.to_str = some "CANCELLED" ∧
    (Status.from_str "EXECUTED").map Status.to_str = some "EXECUTED" ∧
    (Status.from_str "EXPIRED").map Status.to_str = some "EXPIRED" ∧
    (Status.from_str "VALID").map Status.to_str = some "VALID" ∧
    (∀ s : Sort', Sort'.from_str s.to_str = some s) ∧
    (Sort'.from_str "EXPIRING_SOON").map Sort'.to_str = some "EXPIRING_SOON" ∧
    (Sort'.from_str "NEWEST").map Sort'.to_str = some "NEWEST" ∧
    (Sort'.from_str "PRICE_ASC").map Sort'.to_str = some "PRICE_ASC" ∧
    (Sort'.from_str "PRICE_DESC").map Sort'.to_str = some "PRICE_DESC" := by
  refine ⟨fun s => ?_, rfl, rfl, rfl, rfl, fun s => ?_, rfl, rfl, rfl, rfl⟩
  · cases s <;> rfl
  · cases s <;> rfl

/-- C10: `LooksRareApi::new` takes no network parameter and always binds
the client to Mainnet, so both endpoint URLs of such a client are built
from the mainnet base URL. -/
theorem client_new_mainnet :
    LooksRareApi.new.network = Network.Mainnet ∧
    get_account_url LooksRareApi.new = Network.Mainnet.api ++ "/accounts" ∧
    get_orders_url LooksRareApi.new = Network.Mainnet.api ++ "/orders" :=
  ⟨rfl, rfl, rfl⟩

/-- C7: on a decoded accounts envelope, `get_account` fails with
`AccountNotFound` carrying the requested address exactly when the
envelope's data field is absent, returns the unwrapped account when it is
present, and ignores the success flag and message entirely. -/
theorem get_account_not_found_iff_data_absent
    (req : AccountRequest) (resp : AccountResponse) :
    (get_account_result req resp
        = Except.error (LooksRareApiError.AccountNotFound req.address)
      ↔ resp.data = none) ∧
    (∀ a, resp.data = some a → get_account_result req resp = Except.ok a) ∧
    (∀ su m, get_account_result req
        { success := su, message := m, data := resp.data }
      = get_account_result req resp) := by
  cases h : resp.data <;>
    simp [get_account_result, okOr, h]

/-- Witness for C7 at the spec's example: an envelope with success true and
null data fails with `AccountNotFound` carrying the requested address, and
an envelope carrying an account returns it. -/
theorem get_account_not_found_iff_data_absent_witness :
    get_account_result { address := { bytes := [1, 2] } }
        { success := true, message := none, data := none }
      = Except.error
          (LooksRareApiError.AccountNotFound { bytes := [1, 2] }) ∧
    get_account_result { address := { bytes := [1, 2] } }
        { success := true, message := none,
          data := some { address := { bytes := [1, 2] } } }
      = Except.ok { address := { bytes := [1, 2] } } :=
  ⟨(get_account_not_found_iff_data_absent
      { address := { bytes := [1, 2] } }
      { success := true, message := none, data := none }).1.mpr rfl,
   (get_account_not_found_iff_data_absent
      { address := { bytes := [1, 2] } }
      { success := true, message := none,
        data := some { address := { bytes := [1, 2] } } }).2.1 _ rfl⟩

/-- C8: on a decoded orders envelope, `get_orders` fails with
`OrdersNotFound` exactly when the data field is absent; when data is a
list it returns that very list (hence the same length and order). -/
theorem get_orders_not_found_iff_data_absent (resp : OrdersResponse) :
    (get_orders_result resp = Except.error LooksRareApiError.OrdersNotFound
      ↔ resp.data = none) ∧
    (∀ l, resp.data = some l → get_orders_result resp = Except.ok l) := by
  cases h : resp.data <;>
    simp [get_orders_result, okOr, h]

/-- A concrete order used by witnesses. -/
def sampleOrder : Order :=
  { is_order_ask := true, collection_address := { bytes := [3] },
    token_id := "62962", signer := { bytes := [4] }, nonce := "17832",
    strategy := { bytes := [5] }, currency := { bytes := [6] },
    price := 1, start_time := 0, status := "CANCELLED" }

/-- Witness for C8: a data-null envelope fails with `OrdersNotFound`, and
an envelope with a one-element list returns exactly that list. -/
theorem get_orders_not_found_iff_data_absent_witness :
    get_orders_result { success := true, message := none, data := none }
      = Except.error LooksRareApiError.OrdersNotFound ∧
    get_orders_result
        { success := true, message := none, data := some [sampleOrder] }
      = Except.ok [sampleOrder] :=
  ⟨(get_orders_not_found_iff_data_absent
      { success := true, message := none, data := none }).1.mpr rfl,
   (get_orders_not_found_iff_data_absent
      { success := true, message := none, data := some [sampleOrder] }).2
      _ rfl⟩

/-- C3: when the status field is a present list, the encoder emits exactly
one pair per element, all under the bracket-suffixed status key, each
value the element's wire token, in list order (so an empty present list
emits zero pairs); an absent status field also emits zero pairs. -/
theorem orders_query_status_list_encoding (req : OrdersRequest) :
    (∀ l, req.status = some l →
      keyPairs (get_orders_query_strings req) "status[]"
        = l.map fun x => ("status[]", x.to_str)) ∧
    (req.status = none →
      keyPairs (get_orders_query_strings req) "status[]" = []) := by
  constructor
  · intro l h
    rw [keyPairs_query, h, keyPairs_statusSeg_eq]
    simp [keyPairs_optSeg_ne, keyPairs_pagSeg_ne, keyPairs_sortSeg_ne]
  · intro h
    rw [keyPairs_query, h]
    simp [keyPairs_optSeg_ne, keyPairs_pagSeg_ne, keyPairs_sortSeg_ne,
      statusSeg, stringsOf_nil, keyPairs_nil]

/-- Witness for C3, covering each hypothesis: a request with status list
Cancelled yields the single CANCELLED pair, a request with a present but
empty status list yields no status pair, and a request with status absent
yields no status pair. -/
theorem orders_query_status_list_encoding_witness :
    keyPairs (get_orders_query_strings
        { emptyOrdersRequest with status := some [Status.Cancelled] })
        "status[]"
      = [("status[]", "CANCELLED")] ∧
    keyPairs (get_orders_query_strings
        { emptyOrdersRequest with status := some [] }) "status[]" = [] ∧
    keyPairs (get_orders_query_strings emptyOrdersRequest) "status[]" = [] :=
  ⟨(orders_query_status_list_encoding
      { emptyOrdersRequest with status := some [Status.Cancelled] }).1
      [Status.Cancelled] rfl,
   (orders_query_status_list_encoding
      { emptyOrdersRequest with status := some [] }).1 [] rfl,
   (orders_query_status_list_encoding emptyOrdersRequest).2 rfl⟩

/-- C4: under a present pagination object the encoder emits the
pagination-first pair (decimal integer) exactly when first is set and the
pagination-cursor pair exactly when cursor is set, while an absent
pagination emits neither pair. -/
theorem orders_query_pagination_encoding (req : OrdersRequest) :
    (∀ p, req.pagination = some p →
      (∀ f, p.first = some f →
        keyPairs (get_orders_query_strings req) "pagination[first]"
          = [("pagination[first]", toString f)]) ∧
      (p.first = none →
        keyPairs (get_orders_query_strings req) "pagination[first]" = []) ∧
      (∀ c, p.cursor = some c →
        keyPairs (get_orders_query_strings req) "pagination[cursor]"
          = [("pagination[cursor]", c)]) ∧
      (p.cursor = none →
        keyPairs (get_orders_query_strings req) "pagination[cursor]" = [])) ∧
    (req.pagination = none →
      keyPairs (get_orders_query_strings req) "pagination[first]" = [] ∧
      keyPairs (get_orders_query_strings req) "pagination[cursor]" = []) := by
  constructor
  · intro p hp
    refine ⟨fun f hf => ?_, fun hf => ?_, fun c hc => ?_, fun hc => ?_⟩ <;>
      [rw [keyPairs_query, hp, keyPairs_pagSeg_first, hf];
       rw [keyPairs_query, hp, keyPairs_pagSeg_first, hf];
       rw [keyPairs_query, hp, keyPairs_pagSeg_cursor, hc];
       rw [keyPairs_query, hp, keyPairs_pagSeg_cursor, hc]] <;>
      simp [keyPairs_optSeg_ne, keyPairs_statusSeg_ne, keyPairs_sortSeg_ne]
  · intro hp
    constructor <;> rw [keyPairs_query, hp] <;>
      simp [keyPairs_optSeg_ne, keyPairs_statusSeg_ne, keyPairs_sortSeg_ne,
        paginationSeg, stringsOf_nil, keyPairs_nil]

/-- Witness for C4, covering each hypothesis: pagination with only first
set yields exactly the pagination-first pair and no cursor pair; pagination
with only cursor set yields exactly the cursor pair and no first pair; an
absent pagination yields neither. -/
theorem orders_query_pagination_encoding_witness :
    keyPairs (get_orders_query_strings
        { emptyOrdersRequest with
            pagination := some { first := some 4, cursor := none } })
        "pagination[first]"
      = [("pagination[first]", "4")] ∧
    keyPairs (get_orders_query_strings
        { emptyOrdersRequest with
            pagination := some { first := some 4, cursor := none } })
        "pagination[cursor]" = [] ∧
    keyPairs (get_orders_query_strings
        { emptyOrdersRequest with
            pagination := some { first := none, cursor := some "abc" } })
        "pagination[cursor]"
      = [("pagination[cursor]", "abc")] ∧
    keyPairs (get_orders_query_strings
        { emptyOrdersRequest with
            pagination := some { first := none, cursor := some "abc" } })
        "pagination[first]" = [] ∧
    keyPairs (get_orders_query_strings emptyOrdersRequest)
        "pagination[first]" = [] ∧
    keyPairs (get_orders_query_strings emptyOrdersRequest)
        "pagination[cursor]" = [] :=
  ⟨((orders_query_pagination_encoding
      { emptyOrdersRequest with
          pagination := some { first := some 4, cursor := none } }).1
      _ rfl).1 4 rfl,
   ((orders_query_pagination_encoding
      { emptyOrdersRequest with
          pagination := some { first := some 4, cursor := none } }).1
      _ rfl).2.2.2 rfl,
   ((orders_query_pagination_encoding
      { emptyOrdersRequest with
          pagination := some { first := none, cursor := some "abc" } }).1
      _ rfl).2.2.1 "abc" rfl,
   ((orders_query_pagination_encoding
      { emptyOrdersRequest with
          pagination := some { first := none, cursor := some "abc" } }).1
      _ rfl).2.1 rfl,
   ((orders_query_pagination_encoding emptyOrdersRequest).2 rfl).1,
   ((orders_query_pagination_encoding emptyOrdersRequest).2 rfl).2⟩

/-- C9: the query encoding is total — the panic-tracking encoder (every
`Option::unwrap` modelled as a bind that fails on `None`) succeeds on every
request and agrees with the pure encoder. -/
theorem orders_query_encoding_total (req : OrdersRequest) :
    get_orders_query? req = some (get_orders_query req) := by
  obtain ⟨a1, a2, a3, a4, a5, a6, a7, a8, a9, st, pg, so⟩ := req
  cases pg with
  | none => cases st <;> cases so <;> rfl
  | some p =>
      obtain ⟨pf, pc⟩ := p
      cases pf <;> cases pc <;> cases st <;> cases so <;> rfl

/-- C1 (amended): each present optional scalar field contributes exactly
one pair to the encoded query, keyed by its lower-camel-case wire key, with
the value stringified per its serde serialization: booleans as the strings
true and false, the string-typed fields (tokenId, nonce) verbatim, the
unsigned-64-bit startTime in decimal, the unsigned-256-bit price as
0x-prefixed minimal lowercase hexadecimal, and addresses as 0x-prefixed
lowercase (non-checksummed) 40-digit hexadecimal. -/
theorem orders_query_scalar_field_encoding (req : OrdersRequest) :
    (∀ b, req.is_order_ask = some b →
      keyPairs (get_orders_query_strings req) "isOrderAsk"
        = [("isOrderAsk", cond b "true" "false")]) ∧
    (∀ a, req.collection = some a →
      keyPairs (get_orders_query_strings req) "collection"
        = [("collection", a.toHexString)]) ∧
    (∀ s, req.token_id = some s →
      keyPairs (get_orders_query_strings req) "tokenId" = [("tokenId", s)]) ∧
    (∀ a, req.signer = some a →
      keyPairs (get_orders_query_strings req) "signer"
        = [("signer", a.toHexString)]) ∧
    (∀ s, req.nonce = some s →
      keyPairs (get_orders_query_strings req) "nonce" = [("nonce", s)]) ∧
    (∀ a, req.strategy = some a →
      keyPairs (get_orders_query_strings req) "strategy"
        = [("strategy", a.toHexString)]) ∧
    (∀ a, req.currency = some a →
      keyPairs (get_orders_query_strings req) "currency"
        = [("currency", a.toHexString)]) ∧
    (∀ n, req.price = some n →
      keyPairs (get_orders_query_strings req) "price"
        = [("price", u256ToHexString n)]) ∧
    (∀ n, req.start_time = some n →
      keyPairs (get_orders_query_strings req) "startTime"
        = [("startTime", toString n)]) := by
  refine ⟨fun v h => ?_, fun v h => ?_, fun v h => ?_, fun v h => ?_,
    fun v h => ?_, fun v h => ?_, fun v h => ?_, fun v h => ?_,
    fun v h => ?_⟩ <;>
  rw [keyPairs_query, h] <;>
  simp [keyPairs_optSeg_eq, keyPairs_optSeg_ne, keyPairs_statusSeg_ne,
    keyPairs_pagSeg_ne, keyPairs_sortSeg_ne, toValueOptBool,
    toValueOptAddress, toValueOptString, toValueOptU256, toValueOptU64,
    JsonValue.render]

/-- A request with every optional scalar field present (the byte lists are
kept short; the encoder is agnostic to address length). -/
def c1WitnessRequest : OrdersRequest :=
  { is_order_ask := some true, collection := some { bytes := [0x2a] },
    token_id := some "62962", signer := some { bytes := [0x2b] },
    nonce := some "17832", strategy := some { bytes := [0x2c] },
    currency := some { bytes := [0x2d] }, price := some 100,
    start_time := some 1650000000, status := none, pagination := none,
    sort := none }

/-- Witness for C1 at a request with every scalar field present, applying
the amended theorem field by field. -/
theorem orders_query_scalar_field_encoding_witness :
    keyPairs (get_orders_query_strings c1WitnessRequest) "isOrderAsk"
      = [("isOrderAsk", "true")] ∧
    keyPairs (get_orders_query_strings c1WitnessRequest) "collection"
      = [("collection", "0x2a")] ∧
    keyPairs (get_orders_query_strings c1WitnessRequest) "tokenId"
      = [("tokenId", "62962")] ∧
    keyPairs (get_orders_query_strings c1WitnessRequest) "signer"
      = [("signer", "0x2b")] ∧
    keyPairs (get_orders_query_strings c1WitnessRequest) "nonce"
      = [("nonce", "17832")] ∧
    keyPairs (get_orders_query_strings c1WitnessRequest) "strategy"
      = [("strategy", "0x2c")] ∧
    keyPairs (get_orders_query_strings c1WitnessRequest) "currency"
      = [("currency", "0x2d")] ∧
    keyPairs (get_orders_query_strings c1WitnessRequest) "price"
      = [("price", "0x64")] ∧
    keyPairs (get_orders_query_strings c1WitnessRequest) "startTime"
      = [("startTime", "1650000000")] :=
  ⟨(orders_query_scalar_field_encoding c1WitnessRequest).1 true rfl,
   (orders_query_scalar_field_encoding c1WitnessRequest).2.1 _ rfl,
   (orders_query_scalar_field_encoding c1WitnessRequest).2.2.1 _ rfl,
   (orders_query_scalar_field_encoding c1WitnessRequest).2.2.2.1 _ rfl,
   (orders_query_scalar_field_encoding c1WitnessRequest).2.2.2.2.1 _ rfl,
   (orders_query_scalar_field_encoding c1WitnessRequest).2.2.2.2.2.1 _ rfl,
   (orders_query_scalar_field_encoding c1WitnessRequest).2.2.2.2.2.2.1 _ rfl,
   (orders_query_scalar_field_encoding
      c1WitnessRequest).2.2.2.2.2.2.2.1 _ rfl,
   (orders_query_scalar_field_encoding
      c1WitnessRequest).2.2.2.2.2.2.2.2 _ rfl⟩

/-- The address of the repository's `can_get_account` test,
0x3d67b76CF3dcc881255eb2262E788BE03b2f5B9F. -/
def c1Address : Address :=
  { bytes := [0x3d, 0x67, 0xb7, 0x6c, 0xf3, 0xdc, 0xc8, 0x81, 0x25, 0x5e,
              0xb2, 0x26, 0x2e, 0x78, 0x8b, 0xe0, 0x3b, 0x2f, 0x5b, 0x9f] }

/-- A request with a present address-typed field and a present price. -/
def c1BadRequest : OrdersRequest :=
  { emptyOrdersRequest with collection := some c1Address, price := some 100 }

set_option maxRecDepth 20000 in
/-- Counterexample to C1 as stated: at a concrete request the unique price
pair carries 0x64, not the decimal notation 100, and the unique collection
pair carries all-lowercase hex, not the canonical (EIP-55 checksummed)
form, which for this address is mixed-case. -/
theorem orders_query_claimed_value_forms_refuted :
    keyPairs (get_orders_query_strings c1BadRequest) "price"
      = [("price", "0x64")] ∧
    u256ToHexString 100 = "0x64" ∧
    ("0x64" : String) ≠ toString (100 : Nat) ∧
    keyPairs (get_orders_query_strings c1BadRequest) "collection"
      = [("collection", "0x3d67b76cf3dcc881255eb2262e788be03b2f5b9f")] ∧
    c1Address.toChecksumString
      = "0x3d67b76CF3dcc881255eb2262E788BE03b2f5B9F" ∧
    ("0x3d67b76cf3dcc881255eb2262e788be03b2f5b9f" : String)
      ≠ c1Address.toChecksumString :=
  ⟨by decide, by decide, by decide, by decide, by decide, by decide⟩






